import Mathlib

/-!
Verification development for the git-repository installer module
(models/git_repository.py).  The Python source is shallowly embedded:
strings are lists of characters (`Str`), the filesystem is the list of
existing directory paths, database records are explicit lists, and every
external effect that can fail (subprocess, rmtree, makedirs, record
creation) is driven by an explicit environment of boolean outcomes.
-/

/-- Strings from the Python source are modelled as lists of characters. -/
abbrev Str := List Char

/-- Coerce a Lean string literal to the character-list representation. -/
def strOf (s : String) : Str := s.data

/- ===== Ref kinds and the full-reference format (source lines 127/141/168) ===== -/

/-- The two ref kinds produced by `_get_git_refs`: `('tag', …)` / `('branch', …)`. -/
inductive RefKind where
  | tag
  | branch
deriving DecidableEq

/-- The literal kind string used by the source (`'tag'` / `'branch'`). -/
def kindData : RefKind → Str
  | RefKind.tag => strOf "tag"
  | RefKind.branch => strOf "branch"

/-- Source line 168: `f"{ref_type}:{ref_name}"`. -/
def formatRef (k : RefKind) (n : Str) : Str := kindData k ++ ':' :: n

/-- Split a character list at the first `':'`, mirroring Python's
`split(':', 1)`; `none` when no colon occurs (Python `':' in ref_full` false). -/
def splitFirstColon : Str → Option (Str × Str)
  | [] => none
  | c :: cs =>
    if c = ':' then some ([], cs)
    else
      match splitFirstColon cs with
      | some (a, b) => some (c :: a, b)
      | none => none

/-- Source lines 242-247: parse `ref_full`; with no colon, default to kind
`'tag'` for backward compatibility. -/
def parseRef (s : Str) : Str × Str :=
  match splitFirstColon s with
  | some (t, nm) => (t, nm)
  | none => (strOf "tag", s)

/- ===== Python str.strip() as used by `_run_command` (source line 103) ===== -/

/-- Python's whitespace set for `str.strip()`. -/
def isPySpace (c : Char) : Bool :=
  c = ' ' || c = '\t' || c = '\n' || c = '\r' || c = '\x0b' || c = '\x0c'

/-- Drop leading whitespace (Python `lstrip()`). -/
def lstripData (l : Str) : Str := List.dropWhile isPySpace l

/-- Drop trailing whitespace (Python `rstrip()`). -/
def rstripData (l : Str) : Str := (List.dropWhile isPySpace l.reverse).reverse

/-- Python `str.strip()`: whitespace removed from both ends. -/
def pyStrip (l : Str) : Str := rstripData (lstripData l)

/-- Source line 103: on success `_run_command` returns `result.stdout.strip()`. -/
def runCommandStdout (stdout : Str) : Str := pyStrip stdout

/- ===== Parsing `git ls-remote` output (source lines 110-148) ===== -/

/-- The suffix of `l` strictly after the LAST occurrence of the (nonempty)
separator `sep`; `none` when `sep` does not occur.  This is exactly what the
source's `line.split(sep)[-1]` extracts, and occurrence (`isSome`) is exactly
Python's `sep in line`. -/
def afterLastOcc (sep : Str) : Str → Option Str
  | [] => none
  | c :: rest =>
    match afterLastOcc sep rest with
    | some r => some r
    | none =>
      if sep.isPrefixOf (c :: rest) then some (List.drop sep.length (c :: rest))
      else none

/-- Python `output.split('\n')` (and `url.split('/')`): split on a single
character, keeping empty pieces. -/
def splitOnChar (sep : Char) : Str → List Str
  | [] => [[]]
  | c :: rest =>
    if c = sep then [] :: splitOnChar sep rest
    else
      match splitOnChar sep rest with
      | [] => [[c]]
      | l :: ls => (c :: l) :: ls

/-- Source lines 124-128: a tag line contributes the text after the last
`refs/tags/`, unless it carries the annotated-tag dereference suffix. -/
def parseTagLine (line : Str) : Option Str :=
  if line = [] then none
  else
    match afterLastOcc (strOf "refs/tags/") line with
    | none => none
    | some t => if List.isSuffixOf ['^', '\x7b', '\x7d'] t then none else some t

/-- Source lines 139-141: a branch line contributes the text after the last
`refs/heads/` (no dereference filtering for heads). -/
def parseBranchLine (line : Str) : Option Str :=
  if line = [] then none
  else
    match afterLastOcc (strOf "refs/heads/") line with
    | none => none
    | some b => some b

/-- Source lines 122-128: tags collected from one `git ls-remote --tags` output. -/
def tagsFromOutput (output : Str) : List (RefKind × Str) :=
  if output = [] then []
  else
    (splitOnChar '\n' output).filterMap
      (fun line => (parseTagLine line).map (fun t => (RefKind.tag, t)))

/-- Source lines 137-141: branches collected from one `git ls-remote --heads` output. -/
def branchesFromOutput (output : Str) : List (RefKind × Str) :=
  if output = [] then []
  else
    (splitOnChar '\n' output).filterMap
      (fun line => (parseBranchLine line).map (fun b => (RefKind.branch, b)))

/-- Outcome of one `_run_command` invocation: captured stdout, or an exception. -/
inductive CmdResult where
  | ok (output : Str)
  | err
deriving DecidableEq

/-- Source lines 118-130: a failing tag query is logged and contributes nothing. -/
def tagContrib : CmdResult → List (RefKind × Str)
  | CmdResult.ok o => tagsFromOutput o
  | CmdResult.err => []

/-- Source lines 133-143: a failing branch query is logged and contributes nothing. -/
def branchContrib : CmdResult → List (RefKind × Str)
  | CmdResult.ok o => branchesFromOutput o
  | CmdResult.err => []

/- ===== The sort on line 146:
   `refs.sort(key=lambda x: (x[0] != 'tag', x[1]), reverse=True)` ===== -/

/-- The first key component, `x[0] != 'tag'`. -/
def refKeyFlag : RefKind → Bool
  | RefKind.tag => false
  | RefKind.branch => true

/-- Lexicographic `≤` on character lists by code point (Python string order). -/
def strLeB : Str → Str → Bool
  | [], _ => true
  | _ :: _, [] => false
  | a :: as, b :: bs => if a < b then true else if b < a then false else strLeB as bs

/-- Lexicographic `≤` on the sort key `(x[0] != 'tag', x[1])`,
with `False < True` as in Python. -/
def keyLeB (x y : Bool × Str) : Bool :=
  if x.1 = y.1 then strLeB x.2 y.2 else (!x.1 && y.1)

/-- Insert into a descending-sorted list, placing the new element before the
first element whose key is `≤` its own; with a `foldr` this yields exactly a
stable descending sort, which is the semantics of Python's stable
`list.sort(key=…, reverse=True)`. -/
def insertDescBy (key : α → Bool × Str) (x : α) : List α → List α
  | [] => [x]
  | y :: ys => if keyLeB (key y) (key x) then x :: y :: ys else y :: insertDescBy key x ys

/-- Stable descending sort by key (Python `list.sort(key=…, reverse=True)`). -/
def sortDescBy (key : α → Bool × Str) (l : List α) : List α :=
  List.foldr (insertDescBy key) [] l

/-- Source line 146: the catalog sort of `_get_git_refs`. -/
def pySortRefs (refs : List (RefKind × Str)) : List (RefKind × Str) :=
  sortDescBy (fun r => (refKeyFlag r.1, r.2)) refs

/-- Source lines 110-148, `_get_git_refs`: merge the two query contributions
(tags appended first) and sort. -/
def getGitRefs (tagQ branchQ : CmdResult) : List (RefKind × Str) :=
  pySortRefs (tagContrib tagQ ++ branchContrib branchQ)

/-- Source lines 162-165: `action_validate_repository` raises the
"no tags or branches found" error exactly when `_get_git_refs` returned `[]`. -/
def noRefsErrorRaised (tagQ branchQ : CmdResult) : Bool :=
  (getGitRefs tagQ branchQ).isEmpty

/-- Modelled from the spec's words (for comparison with the code): the claimed
condition for the "no refs" failure — BOTH queries fail, or both succeed but
the union of their results is empty. -/
def claimedNoRefsCond : CmdResult → CmdResult → Bool
  | CmdResult.err, CmdResult.err => true
  | CmdResult.ok o1, CmdResult.ok o2 => (tagsFromOutput o1 ++ branchesFromOutput o2).isEmpty
  | _, _ => false

/- ===== Repository record state and `action_validate_repository`
   (source lines 20-43 and 153-204) ===== -/

/-- The repository `state` selection field (source lines 37-41). -/
inductive SyncState where
  | draft
  | validated
  | error
deriving DecidableEq

/-- Failures that can escape `action_validate_repository`'s try block:
the `git --version` probe failing, or the empty-refs check (line 164). -/
inductive ValidateErr where
  | gitVersionFailed
  | noRefsFound
deriving DecidableEq

/-- The fields of a `git.repository` record touched by validation. -/
structure RepoRecord where
  tags : Option Str
  lastSync : Option Nat
  state : SyncState
  errorMessage : Option ValidateErr
deriving DecidableEq

/-- External outcomes consumed by one `action_validate_repository` run. -/
structure ValidateEnv where
  gitVersionOk : Bool
  tagQ : CmdResult
  branchQ : CmdResult
  now : Nat
deriving DecidableEq

/-- Source line 168 applied to one parsed ref pair. -/
def formatRefPair (p : RefKind × Str) : Str := formatRef p.1 p.2

/-- Source line 170: `sum(1 for rt, _ in refs if rt == 'tag')`. -/
def countTags (refs : List (RefKind × Str)) : Nat :=
  List.countP (fun p => decide (p.1 = RefKind.tag)) refs

/-- Source line 171. -/
def countBranches (refs : List (RefKind × Str)) : Nat :=
  List.countP (fun p => decide (p.1 = RefKind.branch)) refs

/-- Source lines 153-204, `action_validate_repository`.  The returned record
is the state as committed to the database (`self.write` followed by
`self.env.cr.commit()` in both the success path, lines 173-181, and the
except block, lines 198-204, which re-raises after committing).  On success
the result carries the tag/branch counts reported in the notification. -/
def actionValidateRepository (env : ValidateEnv) (r : RepoRecord) :
    RepoRecord × Except ValidateErr (Nat × Nat) :=
  if env.gitVersionOk then
    let refs := getGitRefs env.tagQ env.branchQ
    if refs.isEmpty then
      (⟨r.tags, r.lastSync, SyncState.error, some ValidateErr.noRefsFound⟩,
       Except.error ValidateErr.noRefsFound)
    else
      (⟨some (List.intercalate (strOf "\n") (refs.map formatRefPair)),
        some env.now, SyncState.validated, none⟩,
       Except.ok (countTags refs, countBranches refs))
  else
    (⟨r.tags, r.lastSync, SyncState.error, some ValidateErr.gitVersionFailed⟩,
     Except.error ValidateErr.gitVersionFailed)

/- ===== Filesystem model shared by the checkout engine and module removal ===== -/

/-- Python `os.path.exists` over the set of existing directory paths. -/
def fsContains (fs : List Str) (p : Str) : Bool := decide (p ∈ fs)

/-- Creating a directory (`os.makedirs` / a successful `git clone` /
the destination of `shutil.move`). -/
def fsAdd (fs : List Str) (p : Str) : List Str :=
  if p ∈ fs then fs else p :: fs

/-- A successful `shutil.rmtree p` (and the source of `shutil.move`). -/
def fsRemove (fs : List Str) (p : Str) : List Str :=
  List.filter (fun q => decide (q ≠ p)) fs

/-- A `git.installed.module` record (source lines 333-342 / created at 294-300). -/
structure InstalledModuleRec where
  repositoryId : Nat
  name : Str
  tag : Str
  path : Str
  installDate : Nat
deriving DecidableEq

/-- Mutable world state seen by the engine: existing directories plus the
ledger of `git.installed.module` records. -/
structure EngineState where
  fs : List Str
  records : List InstalledModuleRec
deriving DecidableEq

/- ===== The checkout engine `_clone_repository_tag` (source lines 232-310) ===== -/

/-- Errors raised by `_clone_repository_tag` (all surfaced as `UserError` /
re-raised exceptions in the source). -/
inductive CloneErr where
  | cannotCreatePath
  | alreadyExists
  | cloneCommandFailed
  | moveFailed
  | createFailed
deriving DecidableEq

deriving instance DecidableEq for Except

/-- Outcomes of the external effects of one `_clone_repository_tag` run.
`cloneLeftovers` / `moveLeftTarget` say whether a FAILED `git clone` /
`shutil.move` left a directory behind; `rmTempOk` / `rmTargetOk` are the
outcomes of the two `shutil.rmtree(…, ignore_errors=True)` cleanup calls
(a failing one is silent and leaves the directory). -/
structure CloneEnv where
  mkdirsOk : Bool
  cloneOk : Bool
  cloneLeftovers : Bool
  moveOk : Bool
  moveLeftTarget : Bool
  odooUser : Option Str
  chownOk : Bool
  createOk : Bool
  rmTempOk : Bool
  rmTargetOk : Bool
  pid : Nat
  repoId : Nat
  now : Nat
deriving DecidableEq

/-- Source line 273: `f"/tmp/odoo_git_clone_{os.getpid()}"`. -/
def tempDirFor (pid : Nat) : Str := strOf "/tmp/odoo_git_clone_" ++ strOf (Nat.repr pid)

/-- Python `url.rstrip('/')`. -/
def rstripSlashes (l : Str) : Str := (List.dropWhile (fun c => c = '/') l.reverse).reverse

/-- Source lines 258-261: module name from the URL basename, with a trailing
`.git` stripped. -/
def urlBasename (url : Str) : Str :=
  let m := (splitOnChar '/' (rstripSlashes url)).getLastD []
  if List.isSuffixOf (strOf ".git") m then m.take (m.length - 4) else m

/-- Source lines 258-261: the operator override wins, else the URL basename. -/
def moduleNameFor (url : Str) (moduleNameOpt : Option Str) : Str :=
  match moduleNameOpt with
  | some m => m
  | none => urlBasename url

/-- Source line 264: `ref_name.replace('/', '_')`. -/
def sanitizeRefName (n : Str) : Str := n.map (fun c => if c = '/' then '_' else c)

/-- Source line 264: `os.path.join(self.clone_path, f"{module_name}_{…}")`. -/
def targetDirFor (clonePath url refFull : Str) (moduleNameOpt : Option Str) : Str :=
  clonePath ++ '/' :: (moduleNameFor url moduleNameOpt ++ '_' :: sanitizeRefName (parseRef refFull).2)

/-- Source lines 306-307 of the except block: remove the scratch directory
when the `temp_dir` variable is still set and the directory exists, with
`ignore_errors=True` — a failing deletion is silent and leaves the directory. -/
def cleanupTemp (env : CloneEnv) (tempOpt : Option Str) (st : EngineState) : EngineState :=
  match tempOpt with
  | some t => ⟨if fsContains st.fs t && env.rmTempOk then fsRemove st.fs t else st.fs, st.records⟩
  | none => st

/-- Source lines 304-310, the whole except block: the scratch-directory
removal above, then the target-directory removal when it exists, again with
`ignore_errors=True`; the original exception is re-raised unchanged by the
caller of this cleanup. -/
def cleanupState (env : CloneEnv) (tempOpt : Option Str) (targetDir : Str)
    (st : EngineState) : EngineState :=
  ⟨if fsContains (cleanupTemp env tempOpt st).fs targetDir && env.rmTargetOk then
      fsRemove (cleanupTemp env tempOpt st).fs targetDir
    else (cleanupTemp env tempOpt st).fs,
   (cleanupTemp env tempOpt st).records⟩

/-- Source lines 270-310, the try block: clone into the scratch directory,
move it to the target, best-effort chown (failures swallowed, lines 286-291,
with no effect on this state), create the ledger record; on any exception run
the cleanup and re-raise that same exception.  After a successful move the
source sets `temp_dir = None` (line 282), so a later failure cleans up only
the target. -/
def stagePublishRecord (env : CloneEnv) (st : EngineState)
    (moduleName refName tempDir targetDir : Str) : EngineState × Except CloneErr Str :=
  if env.cloneOk then
    if env.moveOk then
      if env.createOk then
        (⟨fsAdd (fsRemove (fsAdd st.fs tempDir) tempDir) targetDir,
          ⟨env.repoId, moduleName, refName, targetDir, env.now⟩ :: st.records⟩,
         Except.ok targetDir)
      else
        (cleanupState env none targetDir
           ⟨fsAdd (fsRemove (fsAdd st.fs tempDir) tempDir) targetDir, st.records⟩,
         Except.error CloneErr.createFailed)
    else
      (cleanupState env (some tempDir) targetDir
         (if env.moveLeftTarget then ⟨fsAdd (fsAdd st.fs tempDir) targetDir, st.records⟩
          else ⟨fsAdd st.fs tempDir, st.records⟩),
       Except.error CloneErr.moveFailed)
  else
    (cleanupState env (some tempDir) targetDir
       (if env.cloneLeftovers then ⟨fsAdd st.fs tempDir, st.records⟩ else st),
     Except.error CloneErr.cloneCommandFailed)

/-- Source lines 257-310: the part of `_clone_repository_tag` running once
the clone path is known to exist — derive the module name and the target
directory, fail fast when the target already exists (line 267, raised BEFORE
the try block, so no cleanup runs), then stage/publish/record. -/
def cloneAfterEnsure (env : CloneEnv) (st1 : EngineState)
    (url clonePath refFull : Str) (moduleNameOpt : Option Str) :
    EngineState × Except CloneErr Str :=
  if fsContains st1.fs (targetDirFor clonePath url refFull moduleNameOpt) then
    (st1, Except.error CloneErr.alreadyExists)
  else
    stagePublishRecord env st1 (moduleNameFor url moduleNameOpt) (parseRef refFull).2
      (tempDirFor env.pid) (targetDirFor clonePath url refFull moduleNameOpt)

/-- Source lines 232-310, `_clone_repository_tag`: after parsing, create
`clone_path` when missing (lines 250-255; a `makedirs` failure raises the
"cannot create clone path" error before anything else happens), then run the
rest of the operation. -/
def cloneRepositoryTag (env : CloneEnv) (st : EngineState)
    (url clonePath refFull : Str) (moduleNameOpt : Option Str) :
    EngineState × Except CloneErr Str :=
  if fsContains st.fs clonePath then
    cloneAfterEnsure env st url clonePath refFull moduleNameOpt
  else if env.mkdirsOk then
    cloneAfterEnsure env ⟨fsAdd st.fs clonePath, st.records⟩ url clonePath refFull moduleNameOpt
  else
    (st, Except.error CloneErr.cannotCreatePath)

/-- An error that arises during or after staging (inside the try block):
the clone command, the move, or the record creation failed. -/
def isStagingError : Except CloneErr Str → Bool
  | Except.error CloneErr.cloneCommandFailed => true
  | Except.error CloneErr.moveFailed => true
  | Except.error CloneErr.createFailed => true
  | _ => false

/-- Replace only the two cleanup-deletion outcomes of an environment. -/
def setRmFlags (env : CloneEnv) (a b : Bool) : CloneEnv :=
  ⟨env.mkdirsOk, env.cloneOk, env.cloneLeftovers, env.moveOk, env.moveLeftTarget,
   env.odooUser, env.chownOk, env.createOk, a, b, env.pid, env.repoId, env.now⟩

/-- Number of ledger records registered at a given path. -/
def countPath (records : List InstalledModuleRec) (p : Str) : Nat :=
  List.countP (fun r => decide (r.path = p)) records

/-- The filesystem after a successful stage-and-publish: the scratch
directory was created by the clone, then moved onto the target (exactly the
success branch of `stagePublishRecord`). -/
def publishedFs (env1 : CloneEnv) (stA : EngineState) (target : Str) : List Str :=
  fsAdd (fsRemove (fsAdd stA.fs (tempDirFor env1.pid)) (tempDirFor env1.pid)) target

/-- The `git.installed.module` record created on a successful checkout
(source lines 294-300). -/
def newRec (env1 : CloneEnv) (url refFull : Str) (mn : Option Str) (target : Str) :
    InstalledModuleRec :=
  ⟨env1.repoId, moduleNameFor url mn, (parseRef refFull).2, target, env1.now⟩

/- ===== `action_remove_module` (source lines 344-372) ===== -/

/-- The two success notifications of `action_remove_module`. -/
inductive RemoveOutcome where
  | notFoundRecordRemoved
  | removedSuccessfully
deriving DecidableEq

/-- The error raised when `shutil.rmtree` fails (source lines 371-372);
note this rmtree does NOT use `ignore_errors`. -/
inductive RemoveErr where
  | rmFailed
deriving DecidableEq

/-- Source lines 344-372, `action_remove_module`: if the path no longer
exists, unlink the record only and report "not found, record removed";
otherwise rmtree then unlink, and a failing rmtree raises without
unlinking the record. -/
def actionRemoveModule (rmOk : Bool) (st : EngineState) (m : InstalledModuleRec) :
    EngineState × Except RemoveErr RemoveOutcome :=
  if fsContains st.fs m.path then
    if rmOk then
      (⟨fsRemove st.fs m.path, st.records.erase m⟩, Except.ok RemoveOutcome.removedSuccessfully)
    else
      (st, Except.error RemoveErr.rmFailed)
  else
    (⟨st.fs, st.records.erase m⟩, Except.ok RemoveOutcome.notFoundRecordRemoved)

/- ===== Helper lemmas: filesystem model ===== -/

theorem fsContains_fsAdd_self (fs : List Str) (p : Str) : fsContains (fsAdd fs p) p = true := by
  unfold fsContains fsAdd
  by_cases h : p ∈ fs <;> simp [h]

theorem fsContains_fsAdd_of_ne {q p : Str} (h : q ≠ p) (fs : List Str) :
    fsContains (fsAdd fs p) q = fsContains fs q := by
  unfold fsContains fsAdd
  by_cases hm : p ∈ fs <;> simp [hm, h]

theorem fsContains_fsAdd_of_mem {fs : List Str} {q : Str} (h : fsContains fs q = true) (p : Str) :
    fsContains (fsAdd fs p) q = true := by
  unfold fsContains fsAdd at *
  by_cases hm : p ∈ fs <;> simp_all

theorem fsContains_fsRemove_self (fs : List Str) (p : Str) :
    fsContains (fsRemove fs p) p = false := by
  simp [fsContains, fsRemove, List.mem_filter]

theorem fsContains_fsRemove_of_ne {q p : Str} (h : q ≠ p) (fs : List Str) :
    fsContains (fsRemove fs p) q = fsContains fs q := by
  simp [fsContains, fsRemove, List.mem_filter, h]

theorem fsContains_fsRemove_of_not {fs : List Str} {q : Str} (h : fsContains fs q = false) (p : Str) :
    fsContains (fsRemove fs p) q = false := by
  simp only [fsContains, fsRemove, List.mem_filter, decide_eq_false_iff_not] at *
  intro hq
  exact h hq.1

theorem fsContains_iteRemove_of_not {fs : List Str} {q : Str} (h : fsContains fs q = false)
    (c : Bool) (p : Str) :
    fsContains (if c = true then fsRemove fs p else fs) q = false := by
  by_cases hc : c = true
  · simp only [hc, if_true]
    exact fsContains_fsRemove_of_not h p
  · simp only [hc, if_false]
    exact h

theorem target_gone_of_rm {b : Bool} (h : b = true) (fs1 : List Str) (target : Str) :
    fsContains (if fsContains fs1 target && b then fsRemove fs1 target else fs1) target = false := by
  by_cases hc : fsContains fs1 target = true
  · simp [hc, h, fsContains_fsRemove_self]
  · have hc' : fsContains fs1 target = false := by
      revert hc; cases fsContains fs1 target <;> simp
    simp [hc']

/- ===== Helper lemmas: cleanup ===== -/

theorem cleanupTemp_records (env : CloneEnv) (tempOpt : Option Str) (st : EngineState) :
    (cleanupTemp env tempOpt st).records = st.records := by
  cases tempOpt <;> rfl

theorem cleanupState_records (env : CloneEnv) (tempOpt : Option Str) (target : Str)
    (st : EngineState) :
    (cleanupState env tempOpt target st).records = st.records := by
  unfold cleanupState
  exact cleanupTemp_records env tempOpt st

theorem cleanupState_target_gone (env : CloneEnv) (tempOpt : Option Str) (target : Str)
    (st : EngineState) (h : env.rmTargetOk = true) :
    fsContains (cleanupState env tempOpt target st).fs target = false := by
  unfold cleanupState
  exact target_gone_of_rm h (cleanupTemp env tempOpt st).fs target

theorem cleanupTemp_gone (env : CloneEnv) (t : Str) (st : EngineState)
    (h : env.rmTempOk = true) :
    fsContains (cleanupTemp env (some t) st).fs t = false := by
  unfold cleanupTemp
  exact target_gone_of_rm h st.fs t

theorem cleanupTemp_of_not (env : CloneEnv) (tempOpt : Option Str) {st : EngineState} {q : Str}
    (h : fsContains st.fs q = false) :
    fsContains (cleanupTemp env tempOpt st).fs q = false := by
  cases tempOpt with
  | none => exact h
  | some t => exact fsContains_iteRemove_of_not h _ t

theorem cleanupState_of_temp_not (env : CloneEnv) (tempOpt : Option Str) (target : Str)
    {st : EngineState} {q : Str}
    (h : fsContains (cleanupTemp env tempOpt st).fs q = false) :
    fsContains (cleanupState env tempOpt target st).fs q = false := by
  unfold cleanupState
  exact fsContains_iteRemove_of_not h _ target

theorem cleanupState_temp_gone (env : CloneEnv) (t target : Str) (st : EngineState)
    (h : env.rmTempOk = true) :
    fsContains (cleanupState env (some t) target st).fs t = false :=
  cleanupState_of_temp_not env (some t) target (cleanupTemp_gone env t st h)

/- ===== Helper lemmas: sorting ===== -/

theorem insertDescBy_ne_nil (key : α → Bool × Str) (x : α) (l : List α) :
    insertDescBy key x l ≠ [] := by
  cases l with
  | nil => simp [insertDescBy]
  | cons y ys =>
    unfold insertDescBy
    by_cases h : keyLeB (key y) (key x) = true <;> simp [h]

theorem pySortRefs_isEmpty (l : List (RefKind × Str)) :
    (pySortRefs l).isEmpty = l.isEmpty := by
  cases l with
  | nil => rfl
  | cons x xs =>
    cases h : pySortRefs (x :: xs) with
    | nil =>
      have hne := insertDescBy_ne_nil (fun (r : RefKind × Str) => (refKeyFlag r.1, r.2)) x
        (sortDescBy (fun (r : RefKind × Str) => (refKeyFlag r.1, r.2)) xs)
      exact absurd h hne
    | cons a as => rfl

/- ===== Helper lemmas: parse / format ===== -/

theorem splitFirstColon_of_append (l1 l2 : Str) (h : ':' ∉ l1) :
    splitFirstColon (l1 ++ ':' :: l2) = some (l1, l2) := by
  induction l1 with
  | nil => simp [splitFirstColon]
  | cons c cs ih =>
    have hc : ¬ (c = ':') := by
      intro e
      exact h (by simp [e])
    have h2 : ':' ∉ cs := fun m => h (List.mem_cons_of_mem c m)
    simp [splitFirstColon, hc, ih h2]

theorem splitFirstColon_of_not_mem (s : Str) (h : ':' ∉ s) : splitFirstColon s = none := by
  induction s with
  | nil => rfl
  | cons c cs ih =>
    have hc : ¬ (c = ':') := by
      intro e
      exact h (by simp [e])
    have h2 : ':' ∉ cs := fun m => h (List.mem_cons_of_mem c m)
    simp [splitFirstColon, hc, ih h2]

theorem colon_not_mem_kindData (k : RefKind) : ':' ∉ kindData k := by
  cases k <;> decide

/- ===== Helper lemmas: strip ===== -/

theorem eq_nil_of_isEmpty {l : List α} (h : l.isEmpty = true) : l = [] := by
  cases l with
  | nil => rfl
  | cons a as => simp [List.isEmpty] at h

theorem isEmpty_reverse (l : List α) : l.reverse.isEmpty = l.isEmpty := by
  cases l with
  | nil => rfl
  | cons a as =>
    cases h : (a :: as).reverse with
    | nil => exact absurd h (by simp)
    | cons b bs => rfl

theorem dropWhile_append_one (p : Char → Bool) (xs : Str) (c : Char) :
    List.dropWhile p (xs ++ [c]) =
      if (List.dropWhile p xs).isEmpty then (if p c then [] else [c])
      else List.dropWhile p xs ++ [c] := by
  induction xs with
  | nil => simp [List.dropWhile_cons]
  | cons a as ih =>
    by_cases ha : p a = true
    · simpa [List.dropWhile_cons, ha] using ih
    · simp [List.dropWhile_cons, ha]

theorem rstrip_cons (c : Char) (l : Str) :
    rstripData (c :: l) =
      if (rstripData l).isEmpty then (if isPySpace c then [] else [c])
      else c :: rstripData l := by
  unfold rstripData
  rw [List.reverse_cons, dropWhile_append_one, isEmpty_reverse]
  by_cases h : (List.dropWhile isPySpace l.reverse).isEmpty = true
  · simp only [h, if_true]
    by_cases hc : isPySpace c = true <;> simp [hc]
  · simp [h, List.reverse_append]

theorem pyStrip_eq_lstrip_rstrip (s : Str) : pyStrip s = lstripData (rstripData s) := by
  induction s with
  | nil => rfl
  | cons c l ih =>
    by_cases hc : isPySpace c = true
    · have hl : lstripData (c :: l) = lstripData l := by
        simp [lstripData, List.dropWhile_cons, hc]
      unfold pyStrip at ih ⊢
      rw [hl, ih, rstrip_cons]
      by_cases h : (rstripData l).isEmpty = true
      · rw [eq_nil_of_isEmpty h]
        simp [hc, lstripData]
      · simp [h, lstripData, List.dropWhile_cons, hc]
    · have hl : lstripData (c :: l) = c :: l := by
        simp [lstripData, List.dropWhile_cons, hc]
      unfold pyStrip
      rw [hl, rstrip_cons]
      by_cases h : (rstripData l).isEmpty = true
      · simp [h, hc, lstripData, List.dropWhile_cons]
      · simp [h, lstripData, List.dropWhile_cons, hc]

/- ===== Claim theorems ===== -/

/-- C1: the spec claims the catalog is sorted with all Tag entries before all
Branch entries (reverse-lexicographic within kind), so that for input refs
tag:2.0, tag:1.0, branch:main, branch:18.0 the catalog would be
[tag:2.0, tag:1.0, branch:main, branch:18.0].  The code's
`refs.sort(key=lambda x: (x[0] != 'tag', x[1]), reverse=True)` applies
`reverse=True` to the whole key, so it actually yields
[branch:main, branch:18.0, tag:2.0, tag:1.0] — branches FIRST — contradicting
the claim and the source's own comment "Sort: tags first, then branches".
This theorem evaluates `_get_git_refs` at the spec's own example. -/
theorem getGitRefs_branches_before_tags :
    getGitRefs (CmdResult.ok (strOf "aaaa\trefs/tags/2.0\nbbbb\trefs/tags/1.0"))
        (CmdResult.ok (strOf "cccc\trefs/heads/main\ndddd\trefs/heads/18.0")) =
      [(RefKind.branch, strOf "main"), (RefKind.branch, strOf "18.0"),
       (RefKind.tag, strOf "2.0"), (RefKind.tag, strOf "1.0")] ∧
    getGitRefs (CmdResult.ok (strOf "aaaa\trefs/tags/2.0\nbbbb\trefs/tags/1.0"))
        (CmdResult.ok (strOf "cccc\trefs/heads/main\ndddd\trefs/heads/18.0")) ≠
      [(RefKind.tag, strOf "2.0"), (RefKind.tag, strOf "1.0"),
       (RefKind.branch, strOf "main"), (RefKind.branch, strOf "18.0")] := by
  constructor
  · decide
  · decide

/-- C5: parsing the formatted full reference `kind + ":" + name` yields back
exactly the kind string and the name (the parse splits at the FIRST colon and
the kind strings contain none, so names containing colons survive), and a
legacy input with no colon parses as a Tag with the whole string as name. -/
theorem parseRef_formatRef_roundTrip :
    (∀ (k : RefKind) (n : Str), parseRef (formatRef k n) = (kindData k, n)) ∧
    (∀ s : Str, ':' ∉ s → parseRef s = (kindData RefKind.tag, s)) := by
  constructor
  · intro k n
    unfold parseRef formatRef
    rw [splitFirstColon_of_append (kindData k) n (colon_not_mem_kindData k)]
  · intro s h
    unfold parseRef
    rw [splitFirstColon_of_not_mem s h]
    rfl

/-- Witness for C5: both parts at concrete inputs, the legacy hypothesis
discharged at the colon-free string "main". -/
theorem parseRef_formatRef_roundTrip_witness :
    parseRef (formatRef RefKind.branch (strOf "18.0")) = (kindData RefKind.branch, strOf "18.0") ∧
    (':' ∉ strOf "main") ∧ parseRef (strOf "main") = (kindData RefKind.tag, strOf "main") :=
  ⟨parseRef_formatRef_roundTrip.1 RefKind.branch (strOf "18.0"), by decide,
   parseRef_formatRef_roundTrip.2 (strOf "main") (by decide)⟩

/-- C6 counterexample: the claim says the "no refs" failure happens EXACTLY
when both queries fail or both succeed with an empty union.  But when the tag
query fails and the branch query succeeds with empty output, the code's merged
list is empty and `action_validate_repository` raises "no refs" anyway — a
case the claimed condition excludes. -/
theorem noRefs_mixed_failure_counterexample :
    noRefsErrorRaised CmdResult.err (CmdResult.ok []) = true ∧
    claimedNoRefsCond CmdResult.err (CmdResult.ok []) = false := by
  constructor
  · decide
  · decide

/-- C6 (amended): a single failed query contributes nothing instead of
aborting, and the "no refs" error is raised exactly when BOTH queries
contribute no refs — each having either failed or returned no usable ref
lines (which includes one query failing while the other succeeds empty). -/
theorem noRefs_iff_both_contribs_empty (tagQ branchQ : CmdResult) :
    noRefsErrorRaised tagQ branchQ =
      ((tagContrib tagQ).isEmpty && (branchContrib branchQ).isEmpty) := by
  unfold noRefsErrorRaised getGitRefs
  rw [pySortRefs_isEmpty]
  cases h : tagContrib tagQ with
  | nil => simp
  | cons a as => simp

/-- C7: on every failing validate the committed record has state Error with
the failure message stored, and the previously stored catalog text is not
replaced by any partial result of the failed run; on every successful validate
the error message is cleared and the state is Validated — so after any run,
Validated state and a present error message are mutually exclusive.  The
model's returned record is the state written and committed (`self.write`
followed by `self.env.cr.commit()`) before the exception re-raises. -/
theorem validate_error_state_durable (env : ValidateEnv) (r : RepoRecord) :
    (match actionValidateRepository env r with
     | (r1, Except.error e) =>
         r1.state = SyncState.error ∧ r1.errorMessage = some e ∧ r1.tags = r.tags
     | (r1, Except.ok _) =>
         r1.state = SyncState.validated ∧ r1.errorMessage = none) ∧
    ((actionValidateRepository env r).1.state = SyncState.validated ↔
      (actionValidateRepository env r).1.errorMessage = none) := by
  unfold actionValidateRepository
  by_cases hg : env.gitVersionOk = true
  · by_cases hr : (getGitRefs env.tagQ env.branchQ).isEmpty = true
    · simp [hg, hr]
    · simp [hg, hr]
  · simp [hg]

/-- C8: removing a module whose directory no longer exists on disk succeeds
without raising, deletes only the ledger record, leaves the filesystem
untouched, and reports the "not found, record removed" outcome. -/
theorem remove_missing_dir_record_only (rmOk : Bool) (st : EngineState)
    (m : InstalledModuleRec) (h : fsContains st.fs m.path = false) :
    actionRemoveModule rmOk st m =
      (⟨st.fs, st.records.erase m⟩, Except.ok RemoveOutcome.notFoundRecordRemoved) := by
  unfold actionRemoveModule
  simp [h]

/-- Witness for C8: a concrete record whose path is absent from the filesystem. -/
theorem remove_missing_dir_record_only_witness :
    fsContains ([strOf "/mnt/extra-addons"])
        (InstalledModuleRec.mk 1 (strOf "repo") (strOf "2.0") (strOf "/mnt/extra-addons/repo_2.0") 0).path = false ∧
    actionRemoveModule true
        ⟨[strOf "/mnt/extra-addons"],
         [InstalledModuleRec.mk 1 (strOf "repo") (strOf "2.0") (strOf "/mnt/extra-addons/repo_2.0") 0]⟩
        (InstalledModuleRec.mk 1 (strOf "repo") (strOf "2.0") (strOf "/mnt/extra-addons/repo_2.0") 0) =
      (⟨[strOf "/mnt/extra-addons"],
        List.erase [InstalledModuleRec.mk 1 (strOf "repo") (strOf "2.0") (strOf "/mnt/extra-addons/repo_2.0") 0]
          (InstalledModuleRec.mk 1 (strOf "repo") (strOf "2.0") (strOf "/mnt/extra-addons/repo_2.0") 0)⟩,
       Except.ok RemoveOutcome.notFoundRecordRemoved) :=
  ⟨by decide,
   remove_missing_dir_record_only true
     ⟨[strOf "/mnt/extra-addons"],
      [InstalledModuleRec.mk 1 (strOf "repo") (strOf "2.0") (strOf "/mnt/extra-addons/repo_2.0") 0]⟩
     (InstalledModuleRec.mk 1 (strOf "repo") (strOf "2.0") (strOf "/mnt/extra-addons/repo_2.0") 0)
     (by decide)⟩

/-- C9 counterexample: the claim says `_run_command` returns stdout with ONLY
trailing whitespace removed (leading whitespace preserved); but the code's
`result.stdout.strip()` also removes leading whitespace, as the stdout
"  hi" shows. -/
theorem runCommand_not_right_trim_only :
    runCommandStdout (strOf "  hi") ≠ rstripData (strOf "  hi") := by
  decide

/-- C9 (amended): `_run_command` returns the captured stdout stripped of
whitespace at BOTH ends — equal to removing the trailing whitespace and then
also the leading whitespace — and otherwise unmodified. -/
theorem runCommand_strips_both_ends (stdout : Str) :
    runCommandStdout stdout = lstripData (rstripData stdout) := by
  unfold runCommandStdout
  exact pyStrip_eq_lstrip_rstrip stdout

theorem cloneAfterEnsure_rm_snd (env : CloneEnv) (st1 : EngineState)
    (url clonePath refFull : Str) (mn : Option Str) (a b : Bool) :
    (cloneAfterEnsure (setRmFlags env a b) st1 url clonePath refFull mn).2 =
      (cloneAfterEnsure env st1 url clonePath refFull mn).2 := by
  unfold cloneAfterEnsure
  by_cases ht : fsContains st1.fs (targetDirFor clonePath url refFull mn) = true
  · simp [ht]
  · simp only [ht, if_false]
    unfold stagePublishRecord
    by_cases hcl : env.cloneOk = true <;> by_cases hmv : env.moveOk = true <;>
      by_cases hcr : env.createOk = true <;>
      simp [setRmFlags, hcl, hmv, hcr]

/-- C10: the two cleanup deletions in the except block use
`ignore_errors=True` and the block ends in a bare `raise`, so the outcome of
the cleanup deletions never changes which error propagates: the error
component of a checkout run is identical for every combination of
cleanup-deletion outcomes — a failing cleanup neither raises a new error nor
replaces the original one. -/
theorem checkout_cleanup_errors_suppressed (env : CloneEnv) (st : EngineState)
    (url clonePath refFull : Str) (mn : Option Str) (a b : Bool) :
    (cloneRepositoryTag (setRmFlags env a b) st url clonePath refFull mn).2 =
      (cloneRepositoryTag env st url clonePath refFull mn).2 := by
  unfold cloneRepositoryTag
  have hmk : (setRmFlags env a b).mkdirsOk = env.mkdirsOk := rfl
  rw [hmk]
  by_cases hcp : fsContains st.fs clonePath = true
  · rw [if_pos hcp, if_pos hcp]
    exact cloneAfterEnsure_rm_snd env st url clonePath refFull mn a b
  · rw [if_neg hcp, if_neg hcp]
    by_cases hm : env.mkdirsOk = true
    · rw [if_pos hm, if_pos hm]
      exact cloneAfterEnsure_rm_snd env ⟨fsAdd st.fs clonePath, st.records⟩ url clonePath refFull mn a b
    · rw [if_neg hm, if_neg hm]

theorem cloneAfterEnsure_staging_cleanup (env : CloneEnv) (st1 : EngineState)
    (url clonePath refFull : Str) (mn : Option Str)
    (h1 : env.rmTempOk = true) (h2 : env.rmTargetOk = true)
    (hf : isStagingError (cloneAfterEnsure env st1 url clonePath refFull mn).2 = true) :
    fsContains (cloneAfterEnsure env st1 url clonePath refFull mn).1.fs
        (tempDirFor env.pid) = false ∧
    fsContains (cloneAfterEnsure env st1 url clonePath refFull mn).1.fs
        (targetDirFor clonePath url refFull mn) = false := by
  unfold cloneAfterEnsure at hf ⊢
  by_cases ht : fsContains st1.fs (targetDirFor clonePath url refFull mn) = true
  · rw [if_pos ht] at hf
    simp [isStagingError] at hf
  · rw [if_neg ht] at hf ⊢
    unfold stagePublishRecord at hf ⊢
    by_cases hcl : env.cloneOk = true
    · rw [if_pos hcl] at hf ⊢
      by_cases hmv : env.moveOk = true
      · rw [if_pos hmv] at hf ⊢
        by_cases hcr : env.createOk = true
        · rw [if_pos hcr] at hf
          simp [isStagingError] at hf
        · rw [if_neg hcr] at hf ⊢
          constructor
          · by_cases heq : tempDirFor env.pid = targetDirFor clonePath url refFull mn
            · rw [heq]
              exact cleanupState_target_gone env none _ _ h2
            · apply cleanupState_of_temp_not
              show fsContains
                  (fsAdd (fsRemove (fsAdd st1.fs (tempDirFor env.pid)) (tempDirFor env.pid))
                    (targetDirFor clonePath url refFull mn))
                  (tempDirFor env.pid) = false
              rw [fsContains_fsAdd_of_ne heq]
              exact fsContains_fsRemove_self _ _
          · exact cleanupState_target_gone env none _ _ h2
      · rw [if_neg hmv] at hf ⊢
        constructor
        · exact cleanupState_temp_gone env _ _ _ h1
        · exact cleanupState_target_gone env _ _ _ h2
    · rw [if_neg hcl] at hf ⊢
      constructor
      · exact cleanupState_temp_gone env _ _ _ h1
      · exact cleanupState_target_gone env _ _ _ h2

/-- C2: whenever a checkout fails during or after staging (a failing clone
command, a failing move, or a failing record creation) and the operating
system honours the two cleanup deletions, the except block removes whichever
of the scratch directory and the target directory exists, so at the moment
the error propagates neither exists on disk. -/
theorem checkout_failure_cleans_scratch_and_target (env : CloneEnv) (st : EngineState)
    (url clonePath refFull : Str) (mn : Option Str)
    (h1 : env.rmTempOk = true) (h2 : env.rmTargetOk = true)
    (hf : isStagingError (cloneRepositoryTag env st url clonePath refFull mn).2 = true) :
    fsContains (cloneRepositoryTag env st url clonePath refFull mn).1.fs
        (tempDirFor env.pid) = false ∧
    fsContains (cloneRepositoryTag env st url clonePath refFull mn).1.fs
        (targetDirFor clonePath url refFull mn) = false := by
  unfold cloneRepositoryTag at hf ⊢
  by_cases hcp : fsContains st.fs clonePath = true
  · rw [if_pos hcp] at hf ⊢
    exact cloneAfterEnsure_staging_cleanup env st url clonePath refFull mn h1 h2 hf
  · rw [if_neg hcp] at hf ⊢
    by_cases hm : env.mkdirsOk = true
    · rw [if_pos hm] at hf ⊢
      exact cloneAfterEnsure_staging_cleanup env _ url clonePath refFull mn h1 h2 hf
    · rw [if_neg hm] at hf
      simp [isStagingError] at hf

/-- Witness for C2: a concrete run in which the clone of an unreachable URL
fails and leaves scratch-directory litter; after the failure neither the
scratch directory nor the target directory exists. -/
theorem checkout_failure_cleans_witness :
    (CloneEnv.mk true false true true false none true true true true 1 1 0).rmTempOk = true ∧
    (CloneEnv.mk true false true true false none true true true true 1 1 0).rmTargetOk = true ∧
    isStagingError
      (cloneRepositoryTag (CloneEnv.mk true false true true false none true true true true 1 1 0)
        ⟨[strOf "/mnt/extra-addons"], []⟩ (strOf "https://example.com/org/repo")
        (strOf "/mnt/extra-addons") (strOf "tag:2.0") none).2 = true ∧
    fsContains
      (cloneRepositoryTag (CloneEnv.mk true false true true false none true true true true 1 1 0)
        ⟨[strOf "/mnt/extra-addons"], []⟩ (strOf "https://example.com/org/repo")
        (strOf "/mnt/extra-addons") (strOf "tag:2.0") none).1.fs
      (tempDirFor 1) = false ∧
    fsContains
      (cloneRepositoryTag (CloneEnv.mk true false true true false none true true true true 1 1 0)
        ⟨[strOf "/mnt/extra-addons"], []⟩ (strOf "https://example.com/org/repo")
        (strOf "/mnt/extra-addons") (strOf "tag:2.0") none).1.fs
      (targetDirFor (strOf "/mnt/extra-addons") (strOf "https://example.com/org/repo")
        (strOf "tag:2.0") none) = false := by
  refine ⟨rfl, rfl, by decide, ?_⟩
  exact checkout_failure_cleans_scratch_and_target
    (CloneEnv.mk true false true true false none true true true true 1 1 0)
    ⟨[strOf "/mnt/extra-addons"], []⟩ (strOf "https://example.com/org/repo")
    (strOf "/mnt/extra-addons") (strOf "tag:2.0") none rfl rfl (by decide)

theorem cloneAfterEnsure_createFailed_cleanup (env : CloneEnv) (st1 : EngineState)
    (url clonePath refFull : Str) (mn : Option Str)
    (h : (cloneAfterEnsure env st1 url clonePath refFull mn).2 =
      Except.error CloneErr.createFailed)
    (h2 : env.rmTargetOk = true) :
    fsContains (cloneAfterEnsure env st1 url clonePath refFull mn).1.fs
        (targetDirFor clonePath url refFull mn) = false ∧
    (cloneAfterEnsure env st1 url clonePath refFull mn).1.records = st1.records := by
  unfold cloneAfterEnsure at h ⊢
  by_cases ht : fsContains st1.fs (targetDirFor clonePath url refFull mn) = true
  · rw [if_pos ht] at h
    simp at h
  · rw [if_neg ht] at h ⊢
    unfold stagePublishRecord at h ⊢
    by_cases hcl : env.cloneOk = true
    · rw [if_pos hcl] at h ⊢
      by_cases hmv : env.moveOk = true
      · rw [if_pos hmv] at h ⊢
        by_cases hcr : env.createOk = true
        · rw [if_pos hcr] at h
          simp at h
        · rw [if_neg hcr] at h ⊢
          constructor
          · exact cleanupState_target_gone env none _ _ h2
          · exact cleanupState_records env none _ _
      · rw [if_neg hmv] at h
        simp at h
    · rw [if_neg hcl] at h
      simp at h

/-- C4 counterexample: the claim says that when the Record step fails after
Publish, the published directory remains on disk unregistered.  In a concrete
run where the clone and move succeed and only the record creation fails, the
except block's target-directory rmtree removes the published directory, so it
does NOT remain: the final state equals the initial one and the target path
is absent. -/
theorem record_failure_directory_removed_counterexample :
    cloneRepositoryTag (CloneEnv.mk true true false true false none true false true true 1 1 0)
        ⟨[strOf "/mnt/extra-addons"], []⟩ (strOf "https://example.com/org/repo")
        (strOf "/mnt/extra-addons") (strOf "tag:2.0") none =
      (⟨[strOf "/mnt/extra-addons"], []⟩, Except.error CloneErr.createFailed) ∧
    fsContains
        (cloneRepositoryTag (CloneEnv.mk true true false true false none true false true true 1 1 0)
          ⟨[strOf "/mnt/extra-addons"], []⟩ (strOf "https://example.com/org/repo")
          (strOf "/mnt/extra-addons") (strOf "tag:2.0") none).1.fs
        (targetDirFor (strOf "/mnt/extra-addons") (strOf "https://example.com/org/repo")
          (strOf "tag:2.0") none) = false := by
  constructor
  · decide
  · decide

/-- C4 (amended): if the Record step fails after the Publish step has moved
the staged directory to the target, the except block removes the published
directory (deletion errors ignored) before the error propagates — provided
the deletion itself succeeds, neither the directory nor any ledger record
remains: the filesystem does not keep the published tree and the records are
unchanged. -/
theorem record_failure_target_removed (env : CloneEnv) (st : EngineState)
    (url clonePath refFull : Str) (mn : Option Str)
    (h : (cloneRepositoryTag env st url clonePath refFull mn).2 =
      Except.error CloneErr.createFailed)
    (h2 : env.rmTargetOk = true) :
    fsContains (cloneRepositoryTag env st url clonePath refFull mn).1.fs
        (targetDirFor clonePath url refFull mn) = false ∧
    (cloneRepositoryTag env st url clonePath refFull mn).1.records = st.records := by
  unfold cloneRepositoryTag at h ⊢
  by_cases hcp : fsContains st.fs clonePath = true
  · rw [if_pos hcp] at h ⊢
    exact cloneAfterEnsure_createFailed_cleanup env st url clonePath refFull mn h h2
  · rw [if_neg hcp] at h ⊢
    by_cases hm : env.mkdirsOk = true
    · rw [if_pos hm] at h ⊢
      exact cloneAfterEnsure_createFailed_cleanup env _ url clonePath refFull mn h h2
    · rw [if_neg hm] at h
      simp at h

/-- Witness for C4's amended theorem at a concrete record-creation failure. -/
theorem record_failure_target_removed_witness :
    (cloneRepositoryTag (CloneEnv.mk true true false true false none true false true true 2 1 0)
        ⟨[strOf "/opt/addons"], []⟩ (strOf "https://example.com/org/other.git")
        (strOf "/opt/addons") (strOf "branch:dev") none).2 =
      Except.error CloneErr.createFailed ∧
    (CloneEnv.mk true true false true false none true false true true 2 1 0).rmTargetOk = true ∧
    fsContains
        (cloneRepositoryTag (CloneEnv.mk true true false true false none true false true true 2 1 0)
          ⟨[strOf "/opt/addons"], []⟩ (strOf "https://example.com/org/other.git")
          (strOf "/opt/addons") (strOf "branch:dev") none).1.fs
        (targetDirFor (strOf "/opt/addons") (strOf "https://example.com/org/other.git")
          (strOf "branch:dev") none) = false ∧
    (cloneRepositoryTag (CloneEnv.mk true true false true false none true false true true 2 1 0)
        ⟨[strOf "/opt/addons"], []⟩ (strOf "https://example.com/org/other.git")
        (strOf "/opt/addons") (strOf "branch:dev") none).1.records = [] := by
  refine ⟨by decide, rfl, ?_, ?_⟩
  · exact (record_failure_target_removed
      (CloneEnv.mk true true false true false none true false true true 2 1 0)
      ⟨[strOf "/opt/addons"], []⟩ (strOf "https://example.com/org/other.git")
      (strOf "/opt/addons") (strOf "branch:dev") none (by decide) rfl).1
  · exact (record_failure_target_removed
      (CloneEnv.mk true true false true false none true false true true 2 1 0)
      ⟨[strOf "/opt/addons"], []⟩ (strOf "https://example.com/org/other.git")
      (strOf "/opt/addons") (strOf "branch:dev") none (by decide) rfl).2

theorem clonePath_ne_targetDir (clonePath url refFull : Str) (mn : Option Str) :
    clonePath ≠ targetDirFor clonePath url refFull mn := by
  intro h
  have hl := congrArg List.length h
  simp only [targetDirFor, List.length_append, List.length_cons] at hl
  omega

theorem cloneAfterEnsure_success_then_conflict (env1 env2 : CloneEnv) (stA : EngineState)
    (url clonePath refFull : Str) (mn : Option Str)
    (hc : env1.cloneOk = true) (hv : env1.moveOk = true) (hr : env1.createOk = true)
    (hT : fsContains stA.fs (targetDirFor clonePath url refFull mn) = false)
    (hCp : fsContains stA.fs clonePath = true)
    (hcp : clonePath ≠ tempDirFor env1.pid)
    (hrecA : countPath stA.records (targetDirFor clonePath url refFull mn) = 0) :
    cloneAfterEnsure env1 stA url clonePath refFull mn =
      (⟨publishedFs env1 stA (targetDirFor clonePath url refFull mn),
        newRec env1 url refFull mn (targetDirFor clonePath url refFull mn) :: stA.records⟩,
       Except.ok (targetDirFor clonePath url refFull mn)) ∧
    fsContains (publishedFs env1 stA (targetDirFor clonePath url refFull mn))
      (targetDirFor clonePath url refFull mn) = true ∧
    countPath (newRec env1 url refFull mn (targetDirFor clonePath url refFull mn) :: stA.records)
      (targetDirFor clonePath url refFull mn) = 1 ∧
    cloneRepositoryTag env2
        ⟨publishedFs env1 stA (targetDirFor clonePath url refFull mn),
         newRec env1 url refFull mn (targetDirFor clonePath url refFull mn) :: stA.records⟩
        url clonePath refFull mn =
      (⟨publishedFs env1 stA (targetDirFor clonePath url refFull mn),
        newRec env1 url refFull mn (targetDirFor clonePath url refFull mn) :: stA.records⟩,
       Except.error CloneErr.alreadyExists) := by
  have hT' : fsContains (publishedFs env1 stA (targetDirFor clonePath url refFull mn))
      (targetDirFor clonePath url refFull mn) = true := by
    unfold publishedFs
    exact fsContains_fsAdd_self _ _
  have hC' : fsContains (publishedFs env1 stA (targetDirFor clonePath url refFull mn))
      clonePath = true := by
    unfold publishedFs
    rw [fsContains_fsAdd_of_ne (clonePath_ne_targetDir clonePath url refFull mn),
        fsContains_fsRemove_of_ne hcp]
    exact fsContains_fsAdd_of_mem hCp _
  refine ⟨?_, hT', ?_, ?_⟩
  · unfold cloneAfterEnsure
    rw [if_neg (by rw [hT]; exact Bool.false_ne_true)]
    unfold stagePublishRecord
    rw [if_pos hc, if_pos hv, if_pos hr]
    rfl
  · unfold countPath at hrecA ⊢
    rw [List.countP_cons, hrecA]
    simp [newRec]
  · unfold cloneRepositoryTag
    rw [show (⟨publishedFs env1 stA (targetDirFor clonePath url refFull mn),
        newRec env1 url refFull mn (targetDirFor clonePath url refFull mn) :: stA.records⟩ :
          EngineState).fs =
        publishedFs env1 stA (targetDirFor clonePath url refFull mn) from rfl]
    rw [if_pos hC']
    unfold cloneAfterEnsure
    rw [show (⟨publishedFs env1 stA (targetDirFor clonePath url refFull mn),
        newRec env1 url refFull mn (targetDirFor clonePath url refFull mn) :: stA.records⟩ :
          EngineState).fs =
        publishedFs env1 stA (targetDirFor clonePath url refFull mn) from rfl]
    rw [if_pos hT']

/-- C3: when the computed target directory already exists on disk, a checkout
fails with the "already exists" error without touching the filesystem or the
ledger, and it does so for ANY environment of external outcomes — in
particular without any remote operation.  Hence a second checkout with the
same url, ref and module name after a successful first one fails with
"already exists", leaves the first run's state completely unchanged, and
exactly one ledger record and one on-disk directory for the target exist. -/
theorem conflict_guard_second_checkout_fails (env1 env2 : CloneEnv) (st0 : EngineState)
    (url clonePath refFull : Str) (mn : Option Str)
    (hm : env1.mkdirsOk = true) (hc : env1.cloneOk = true)
    (hv : env1.moveOk = true) (hr : env1.createOk = true)
    (h0 : fsContains st0.fs (targetDirFor clonePath url refFull mn) = false)
    (hrec : countPath st0.records (targetDirFor clonePath url refFull mn) = 0)
    (hcp : clonePath ≠ tempDirFor env1.pid) :
    (cloneRepositoryTag env1 st0 url clonePath refFull mn).2 =
        Except.ok (targetDirFor clonePath url refFull mn) ∧
    fsContains (cloneRepositoryTag env1 st0 url clonePath refFull mn).1.fs
        (targetDirFor clonePath url refFull mn) = true ∧
    countPath (cloneRepositoryTag env1 st0 url clonePath refFull mn).1.records
        (targetDirFor clonePath url refFull mn) = 1 ∧
    cloneRepositoryTag env2 (cloneRepositoryTag env1 st0 url clonePath refFull mn).1
        url clonePath refFull mn =
      ((cloneRepositoryTag env1 st0 url clonePath refFull mn).1,
       Except.error CloneErr.alreadyExists) := by
  by_cases hcp0 : fsContains st0.fs clonePath = true
  · have hA : cloneRepositoryTag env1 st0 url clonePath refFull mn =
        cloneAfterEnsure env1 st0 url clonePath refFull mn := by
      unfold cloneRepositoryTag
      rw [if_pos hcp0]
    obtain ⟨e1, e2, e3, e4⟩ := cloneAfterEnsure_success_then_conflict env1 env2 st0
      url clonePath refFull mn hc hv hr h0 hcp0 hcp hrec
    rw [hA, e1]
    exact ⟨rfl, e2, e3, e4⟩
  · have hA : cloneRepositoryTag env1 st0 url clonePath refFull mn =
        cloneAfterEnsure env1 ⟨fsAdd st0.fs clonePath, st0.records⟩ url clonePath refFull mn := by
      unfold cloneRepositoryTag
      rw [if_neg hcp0, if_pos hm]
    have hT : fsContains (⟨fsAdd st0.fs clonePath, st0.records⟩ : EngineState).fs
        (targetDirFor clonePath url refFull mn) = false := by
      show fsContains (fsAdd st0.fs clonePath) (targetDirFor clonePath url refFull mn) = false
      rw [fsContains_fsAdd_of_ne
        (fun e => clonePath_ne_targetDir clonePath url refFull mn e.symm)]
      exact h0
    have hCp : fsContains (⟨fsAdd st0.fs clonePath, st0.records⟩ : EngineState).fs
        clonePath = true := fsContains_fsAdd_self _ _
    obtain ⟨e1, e2, e3, e4⟩ := cloneAfterEnsure_success_then_conflict env1 env2
      ⟨fsAdd st0.fs clonePath, st0.records⟩ url clonePath refFull mn hc hv hr hT hCp hcp hrec
    rw [hA, e1]
    exact ⟨rfl, e2, e3, e4⟩

/-- Witness for C3: a concrete first checkout into an empty world followed by
an identical second attempt (under an arbitrary, everything-fails second
environment), which fails with "already exists" and changes nothing. -/
theorem conflict_guard_second_checkout_fails_witness :
    fsContains ([] : List Str)
      (targetDirFor (strOf "/mnt/extra-addons") (strOf "https://example.com/org/repo")
        (strOf "tag:2.0") none) = false ∧
    countPath ([] : List InstalledModuleRec)
      (targetDirFor (strOf "/mnt/extra-addons") (strOf "https://example.com/org/repo")
        (strOf "tag:2.0") none) = 0 ∧
    strOf "/mnt/extra-addons" ≠ tempDirFor 1 ∧
    ((cloneRepositoryTag (CloneEnv.mk true true false true false none true true true true 1 1 0)
        ⟨[], []⟩ (strOf "https://example.com/org/repo") (strOf "/mnt/extra-addons")
        (strOf "tag:2.0") none).2 =
      Except.ok (targetDirFor (strOf "/mnt/extra-addons") (strOf "https://example.com/org/repo")
        (strOf "tag:2.0") none) ∧
    fsContains
        (cloneRepositoryTag (CloneEnv.mk true true false true false none true true true true 1 1 0)
          ⟨[], []⟩ (strOf "https://example.com/org/repo") (strOf "/mnt/extra-addons")
          (strOf "tag:2.0") none).1.fs
        (targetDirFor (strOf "/mnt/extra-addons") (strOf "https://example.com/org/repo")
          (strOf "tag:2.0") none) = true ∧
    countPath
        (cloneRepositoryTag (CloneEnv.mk true true false true false none true true true true 1 1 0)
          ⟨[], []⟩ (strOf "https://example.com/org/repo") (strOf "/mnt/extra-addons")
          (strOf "tag:2.0") none).1.records
        (targetDirFor (strOf "/mnt/extra-addons") (strOf "https://example.com/org/repo")
          (strOf "tag:2.0") none) = 1 ∧
    cloneRepositoryTag (CloneEnv.mk false false false false false none false false false false 9 9 9)
        (cloneRepositoryTag (CloneEnv.mk true true false true false none true true true true 1 1 0)
          ⟨[], []⟩ (strOf "https://example.com/org/repo") (strOf "/mnt/extra-addons")
          (strOf "tag:2.0") none).1
        (strOf "https://example.com/org/repo") (strOf "/mnt/extra-addons")
        (strOf "tag:2.0") none =
      ((cloneRepositoryTag (CloneEnv.mk true true false true false none true true true true 1 1 0)
          ⟨[], []⟩ (strOf "https://example.com/org/repo") (strOf "/mnt/extra-addons")
          (strOf "tag:2.0") none).1,
       Except.error CloneErr.alreadyExists)) :=
  ⟨rfl, rfl, by decide,
   conflict_guard_second_checkout_fails
     (CloneEnv.mk true true false true false none true true true true 1 1 0)
     (CloneEnv.mk false false false false false none false false false false 9 9 9)
     ⟨[], []⟩ (strOf "https://example.com/org/repo") (strOf "/mnt/extra-addons")
     (strOf "tag:2.0") none rfl rfl rfl rfl rfl rfl (by decide)⟩
